import Mathlib

/-!
Shallow embedding of the order-placement and order-aggregation workflow of
the mock03-backend repository (src/routes/book.route.js, order router part,
and src/models/order.model.js).

Modelling conventions:
* MongoDB ObjectIds are modelled as `String`.
* `UserModel.findById id` is a first-match lookup on the user directory.
* `BookModel.find \x7b _id: \x7b $in: refs \x7d \x7d` returns the catalog
  documents whose `_id` occurs in `refs`, each stored document at most once,
  in catalog order — modelled as a `filter` over the catalog list.
* `BookModel.findById x` resolves a single identifier to at most one
  document; the mongoose driver casts its argument through the string form of
  the value, so a stored one-element list of ids resolves to the book
  carrying that id and any other stored list value matches no document.
* The order store (`new OrderModel(...)` + `save`) assigns the next
  identifier and appends the record as constructed by the route handler;
  prices are numbers, modelled as `Int` (the claims only involve exact sums).
-/

structure User where
  _id : String
  name : String
  email : String
  deriving Repr, DecidableEq

structure Book where
  _id : String
  title : String
  author : String
  category : String
  price : Int
  quantity : Nat
  deriving Repr, DecidableEq

/-- A stored order, as constructed by the POST /order handler
(src/routes/book.route.js lines 420-425): the route passes the requested
`books` array through unchanged, so the stored record carries the whole
list of book references, together with the computed `totalAmount`. -/
structure Order where
  _id : Nat
  user : String
  books : List String
  totalAmount : Int
  deriving Repr, DecidableEq

/-- The persistent state the order router touches: user directory,
book catalog, order store. -/
structure DB where
  users : List User
  books : List Book
  orders : List Order
  deriving Repr, DecidableEq

/-- `UserModel.findById user` — resolve a user identifier. -/
def findUser (users : List User) (uid : String) : Option User :=
  users.find? (fun u => u._id == uid)

/-- `BookModel.findById id` — resolve a single book identifier. -/
def findBook (books : List Book) (bid : String) : Option Book :=
  books.find? (fun b => b._id == bid)

/-- `BookModel.find(\x7b _id: \x7b $in: books \x7d \x7d)` — the catalog
documents whose identifier occurs among the requested references; each
stored document appears at most once (documents are unique), in catalog
order. -/
def findBooksIn (books : List Book) (refs : List String) : List Book :=
  books.filter (fun b => refs.contains b._id)

/-- `BookModel.findById(order.books)` on the read path
(src/routes/book.route.js line 465): a single-identifier lookup applied to
the stored reference-list value; it resolves exactly when the stored value
denotes one identifier of an existing book. -/
def findBookByRef (books : List Book) (refs : List String) : Option Book :=
  books.find? (fun b => refs == [b._id])

/-- The JSON response of POST /order: HTTP status, message, and the created
order when placement succeeded. -/
structure PlacedResult where
  status : Nat
  message : String
  order : Option Order
  deriving Repr, DecidableEq

/-- POST /order (src/routes/book.route.js lines 401-433), as a function of
the request body `(user, books)` and the database state, returning the
response and the successor state:
1. resolve `user`; absent → 404 "User not found";
2. resolve `books` via `$in`; if the count of resolved documents differs
   from the count of requested references → 400 "Books not found";
3. `totalAmount` = reduce over the resolved documents summing `price`;
4. store the new order (the raw `user` and `books` values of the route plus the
   computed total) and answer 201 with it. -/
def placeOrder (db : DB) (user : String) (books : List String) :
    PlacedResult × DB :=
  match findUser db.users user with
  | none => ({ status := 404, message := "User not found", order := none }, db)
  | some _ =>
    let booksPresent := findBooksIn db.books books
    if booksPresent.length != books.length then
      ({ status := 400, message := "Books not found", order := none }, db)
    else
      let totalAmount := booksPresent.foldl (fun total b => total + b.price) 0
      let newOrder : Order :=
        { _id := db.orders.length, user := user, books := books,
          totalAmount := totalAmount }
      ({ status := 201, message := "Order placed successfully",
         order := some newOrder },
       { db with orders := db.orders ++ [newOrder] })

/-- One enriched record of GET /orders: `order.toObject()` with the `user`
and `books` fields overwritten by the (possibly absent) resolved records. -/
structure PopulatedOrder where
  _id : Nat
  user : Option User
  books : Option Book
  totalAmount : Int
  deriving Repr, DecidableEq

/-- Enrich one stored order (src/routes/book.route.js lines 462-466):
unguarded `findById` lookups; a reference that does not resolve leaves
`null` in the corresponding field. -/
def populateOrder (db : DB) (o : Order) : PopulatedOrder :=
  { _id := o._id,
    user := findUser db.users o.user,
    books := findBookByRef db.books o.books,
    totalAmount := o.totalAmount }

/-- GET /orders (src/routes/book.route.js lines 457-475): full scan of the
order store, one enriched record per stored order, no writes. -/
def listOrders (db : DB) : List PopulatedOrder × DB :=
  (db.orders.map (populateOrder db), db)

/-- The price a single reference contributes: the price of the catalog book
it resolves to (0 when it resolves to nothing). -/
def priceOf (books : List Book) (r : String) : Int :=
  match findBook books r with
  | some b => b.price
  | none => 0

/-- Catalog well-formedness: document identifiers are pairwise distinct
(`_id` is the MongoDB primary key). -/
def catalogIdsNodup (books : List Book) : Prop :=
  (books.map Book._id).Nodup

instance (books : List Book) : Decidable (catalogIdsNodup books) := by
  unfold catalogIdsNodup; infer_instance

/-! Concrete fixtures used by example claims and witnesses. -/

def u1 : User := { _id := "u1", name := "U One", email := "u1@mail" }

def b1 : Book :=
  { _id := "b1", title := "B1", author := "A1", category := "c",
    price := 50, quantity := 3 }

def b2 : Book :=
  { _id := "b2", title := "B2", author := "A2", category := "c",
    price := 60, quantity := 4 }

/-- State of the worked example: user u1, books b1 (price 50) and
b2 (price 60), empty order store. -/
def db4 : DB := { users := [u1], books := [b1, b2], orders := [] }

/-- A store holding one order whose user and book references resolve to
nothing (empty directory and catalog). -/
def dbBadRefs : DB :=
  { users := [], books := [],
    orders := [{ _id := 0, user := "ghost", books := ["gone"],
                 totalAmount := 7 }] }

/-- The dangling order stored in `dbBadRefs`. -/
def ordGhost : Order :=
  { _id := 0, user := "ghost", books := ["gone"], totalAmount := 7 }

/-- A state with one stored single-reference order, for the read path. -/
def db10 : DB :=
  { users := [u1], books := [b1, b2],
    orders := [{ _id := 0, user := "u1", books := ["b1"],
                 totalAmount := 50 }] }

/-- C2: when the user reference does not resolve, placeOrder answers
404 "User not found" whatever the book references are, and writes
nothing. -/
theorem placeOrder_user_not_found (db : DB) (uid : String)
    (refs : List String) (h : findUser db.users uid = none) :
    (placeOrder db uid refs).1.status = 404 ∧
    (placeOrder db uid refs).1.message = "User not found" ∧
    (placeOrder db uid refs).2 = db := by
  simp [placeOrder, h]

theorem placeOrder_user_not_found_witness :
    (placeOrder db4 "zz" ["b1"]).1.status = 404 ∧
    (placeOrder db4 "zz" ["b1"]).1.message = "User not found" ∧
    (placeOrder db4 "zz" ["b1"]).2 = db4 :=
  placeOrder_user_not_found db4 "zz" ["b1"] (by decide)

/-- C4: in the example state (user u1; books b1 price 50, b2 price 60),
placeOrder(u1, [b1, b2]) answers 201 with the stored order, whose
totalAmount is 110. -/
theorem placeOrder_example_total :
    (placeOrder db4 "u1" ["b1", "b2"]).1.status = 201 ∧
    (placeOrder db4 "u1" ["b1", "b2"]).1.order =
      some { _id := 0, user := "u1", books := ["b1", "b2"],
             totalAmount := 110 } ∧
    (placeOrder db4 "u1" ["b1", "b2"]).2.orders =
      [{ _id := 0, user := "u1", books := ["b1", "b2"],
         totalAmount := 110 }] := by
  decide

/-- C5: the orders listing is count-preserving — exactly one enriched
record per stored order, no filtering, no pagination. -/
theorem listOrders_count_preserving (db : DB) :
    (listOrders db).1.length = db.orders.length := by
  simp [listOrders]

/-- C6: enrichment never aborts the listing — the record at each index is
the enrichment of the stored order at that index, and an unresolved user
or book reference leaves null in the corresponding field. -/
theorem listOrders_missing_refs_null (db : DB) (o : Order) (i : Nat)
    (h : db.orders[i]? = some o) :
    (listOrders db).1.length = db.orders.length ∧
    (listOrders db).1[i]? = some (populateOrder db o) ∧
    (findUser db.users o.user = none → (populateOrder db o).user = none) ∧
    (findBookByRef db.books o.books = none →
      (populateOrder db o).books = none) := by
  refine ⟨by simp [listOrders], ?_, ?_, ?_⟩
  · simp [listOrders, List.getElem?_map, h]
  · intro hu; simp [populateOrder, hu]
  · intro hb; simp [populateOrder, hb]

theorem listOrders_missing_refs_null_witness :
    (listOrders dbBadRefs).1.length = dbBadRefs.orders.length ∧
    (listOrders dbBadRefs).1[0]? =
      some (populateOrder dbBadRefs ordGhost) ∧
    (findUser dbBadRefs.users ordGhost.user = none →
      (populateOrder dbBadRefs ordGhost).user = none) ∧
    (findBookByRef dbBadRefs.books ordGhost.books = none →
      (populateOrder dbBadRefs ordGhost).books = none) :=
  listOrders_missing_refs_null dbBadRefs ordGhost 0 (by decide)

/-- Reduction lemma: the outcome of placeOrder when the user reference
does not resolve. -/
theorem placeOrder_of_user_none (db : DB) (uid : String)
    (refs : List String) (h : findUser db.users uid = none) :
    placeOrder db uid refs =
      ({ status := 404, message := "User not found", order := none }, db) := by
  unfold placeOrder
  rw [h]

/-- Reduction lemma: the outcome of placeOrder when the user resolves but
the resolved-books count differs from the requested count. -/
theorem placeOrder_of_len_ne (db : DB) (uid : String)
    (refs : List String) (u : User) (h : findUser db.users uid = some u)
    (hlen : ((findBooksIn db.books refs).length != refs.length) = true) :
    placeOrder db uid refs =
      ({ status := 400, message := "Books not found", order := none }, db) := by
  unfold placeOrder
  rw [h]
  simp [hlen]

/-- Reduction lemma: the outcome of placeOrder when validation passes. -/
theorem placeOrder_of_len_eq (db : DB) (uid : String)
    (refs : List String) (u : User) (h : findUser db.users uid = some u)
    (hlen : ((findBooksIn db.books refs).length != refs.length) = false) :
    placeOrder db uid refs =
      ({ status := 201, message := "Order placed successfully",
         order := some
           { _id := db.orders.length, user := uid, books := refs,
             totalAmount := (findBooksIn db.books refs).foldl
               (fun total b => total + b.price) 0 } },
       { db with orders := db.orders ++
           [{ _id := db.orders.length, user := uid, books := refs,
              totalAmount := (findBooksIn db.books refs).foldl
                (fun total b => total + b.price) 0 }] }) := by
  unfold placeOrder
  rw [h]
  simp [hlen]

theorem status_404_ne_201 : (404 : Nat) ≠ 201 := by decide

theorem status_400_ne_201 : (400 : Nat) ≠ 201 := by decide

/-- C7: placeOrder never writes to the user directory or the book catalog;
on success it appends exactly the returned order to the order store, and
on a validation failure it leaves the whole state unchanged. -/
theorem placeOrder_frame (db : DB) (uid : String) (refs : List String) :
    (placeOrder db uid refs).2.users = db.users ∧
    (placeOrder db uid refs).2.books = db.books ∧
    ((∃ o, (placeOrder db uid refs).1.status = 201 ∧
        (placeOrder db uid refs).1.order = some o ∧
        (placeOrder db uid refs).2.orders = db.orders ++ [o]) ∨
      ((placeOrder db uid refs).1.status ≠ 201 ∧
        (placeOrder db uid refs).2 = db)) := by
  cases hfind : findUser db.users uid with
  | none =>
    rw [placeOrder_of_user_none db uid refs hfind]
    exact ⟨rfl, rfl, Or.inr ⟨status_404_ne_201, rfl⟩⟩
  | some u =>
    cases hlen : ((findBooksIn db.books refs).length != refs.length) with
    | true =>
      rw [placeOrder_of_len_ne db uid refs u hfind hlen]
      exact ⟨rfl, rfl, Or.inr ⟨status_400_ne_201, rfl⟩⟩
    | false =>
      rw [placeOrder_of_len_eq db uid refs u hfind hlen]
      exact ⟨rfl, rfl, Or.inl ⟨_, rfl, rfl, rfl⟩⟩

theorem placeOrder_frame_witness :
    (placeOrder db4 "u1" ["b1", "b2"]).2.users = db4.users ∧
    (placeOrder db4 "u1" ["b1", "b2"]).2.books = db4.books ∧
    ((∃ o, (placeOrder db4 "u1" ["b1", "b2"]).1.status = 201 ∧
        (placeOrder db4 "u1" ["b1", "b2"]).1.order = some o ∧
        (placeOrder db4 "u1" ["b1", "b2"]).2.orders = db4.orders ++ [o]) ∨
      ((placeOrder db4 "u1" ["b1", "b2"]).1.status ≠ 201 ∧
        (placeOrder db4 "u1" ["b1", "b2"]).2 = db4)) :=
  placeOrder_frame db4 "u1" ["b1", "b2"]

/-- C8: the read path is deterministic and write-free — running the
listing twice over the same state yields the same records, and the first
run leaves the state unchanged. -/
theorem listOrders_deterministic (db : DB) :
    (listOrders ((listOrders db).2)).1 = (listOrders db).1 ∧
    (listOrders db).2 = db :=
  ⟨rfl, rfl⟩

/-- The `$in` query over an empty reference list matches nothing. -/
theorem findBooksIn_nil (books : List Book) : findBooksIn books [] = [] := by
  simp [findBooksIn]

/-- C9: an empty book list is never rejected — with an existing user,
placeOrder([]) succeeds and stores an order with totalAmount 0. -/
theorem placeOrder_empty_books (db : DB) (uid : String)
    (h : (findUser db.users uid).isSome = true) :
    (placeOrder db uid []).1.status = 201 ∧
    ((placeOrder db uid []).1.order.map Order.totalAmount) = some 0 ∧
    (placeOrder db uid []).2.orders = db.orders ++
      [{ _id := db.orders.length, user := uid, books := [],
         totalAmount := 0 }] := by
  cases hfind : findUser db.users uid with
  | none => rw [hfind] at h; simp at h
  | some u => simp [placeOrder, hfind, findBooksIn_nil]

theorem placeOrder_empty_books_witness :
    (placeOrder db4 "u1" []).1.status = 201 ∧
    ((placeOrder db4 "u1" []).1.order.map Order.totalAmount) = some 0 ∧
    (placeOrder db4 "u1" []).2.orders = db4.orders ++
      [{ _id := db4.orders.length, user := "u1", books := [],
         totalAmount := 0 }] :=
  placeOrder_empty_books db4 "u1" (by decide)

/-- C1 counterexample: in the example state, every entry of the duplicated
reference list [b1, b1] resolves to an existing book, yet placeOrder is
rejected with 400 instead of succeeding — the `$in` result is
deduplicated, so the length comparison fails on duplicates. -/
theorem placeOrder_dup_refs_rejected :
    (findUser db4.users "u1").isSome = true ∧
    (["b1", "b1"].all (fun r => (findBook db4.books r).isSome)) = true ∧
    (placeOrder db4 "u1" ["b1", "b1"]).1.status = 400 ∧
    (placeOrder db4 "u1" ["b1", "b1"]).1.message = "Books not found" ∧
    (placeOrder db4 "u1" ["b1", "b1"]).1.order = none := by
  decide

/-- C10 counterexample: a stored order can hold two book references — the
route stores the whole requested reference list, although the schema
declares `books` as a single identifier. -/
theorem stored_order_holds_two_refs :
    ((placeOrder db4 "u1" ["b1", "b2"]).2.orders.map
      (fun o => o.books.length)) = [2] := by
  decide

/-- C10 amended: whatever the stored orders hold, the books field of every
enriched record is a single resolved catalog book or null, never a collection
— the read path resolves `order.books` with a single-id lookup. -/
theorem listOrders_books_single_or_null (db : DB) (rec : PopulatedOrder)
    (h : rec ∈ (listOrders db).1) :
    rec.books = none ∨ ∃ b, b ∈ db.books ∧ rec.books = some b := by
  rcases List.mem_map.mp h with ⟨o, _, rfl⟩
  cases hf : findBookByRef db.books o.books with
  | none => exact Or.inl (by simp [populateOrder, hf])
  | some b =>
    exact Or.inr ⟨b, List.mem_of_find?_eq_some hf,
      by simp [populateOrder, hf]⟩

theorem listOrders_books_single_or_null_witness :
    populateOrder db10
        { _id := 0, user := "u1", books := ["b1"], totalAmount := 50 } ∈
      (listOrders db10).1 ∧
    ((populateOrder db10
        { _id := 0, user := "u1", books := ["b1"], totalAmount := 50 }).books
          = none ∨
      ∃ b, b ∈ db10.books ∧
        (populateOrder db10
          { _id := 0, user := "u1", books := ["b1"],
            totalAmount := 50 }).books = some b) :=
  ⟨by decide,
   listOrders_books_single_or_null db10
     (populateOrder db10
       { _id := 0, user := "u1", books := ["b1"], totalAmount := 50 })
     (by decide)⟩

/-- In a catalog with pairwise-distinct identifiers, looking the identifier of a member
up finds exactly that member. -/
theorem find_book_of_mem (books : List Book) (b : Book)
    (hnd : catalogIdsNodup books) (hmem : b ∈ books) :
    findBook books b._id = some b := by
  induction books with
  | nil => cases hmem
  | cons hd tl ih =>
    unfold catalogIdsNodup at hnd
    rw [List.map_cons, List.nodup_cons] at hnd
    rcases List.mem_cons.mp hmem with rfl | htl
    · simp [findBook]
    · have hne : (hd._id == b._id) = false := by
        refine beq_eq_false_iff_ne.mpr ?_
        intro he
        exact hnd.1 (he ▸ List.mem_map_of_mem Book._id htl)
      have hrec : findBook tl b._id = some b := ih hnd.2 htl
      simp only [findBook, List.find?_cons, hne, cond_false]
      exact hrec

/-- The identifiers of the documents matched by the `$in` query are, up to
order, exactly the requested references — provided catalog identifiers are
unique, the references are duplicate-free, and each reference resolves. -/
theorem findBooksIn_map_id_perm (books : List Book) (refs : List String)
    (hnd : catalogIdsNodup books) (hrefs : refs.Nodup)
    (hall : ∀ r ∈ refs, (findBook books r).isSome = true) :
    ((findBooksIn books refs).map Book._id).Perm refs := by
  have hnd2 : ((findBooksIn books refs).map Book._id).Nodup :=
    hnd.sublist ((List.filter_sublist books).map Book._id)
  refine (List.perm_ext_iff_of_nodup hnd2 hrefs).mpr ?_
  intro x
  constructor
  · intro hx
    rcases List.mem_map.mp hx with ⟨b, hbS, rfl⟩
    have hb := List.mem_filter.mp hbS
    simpa using hb.2
  · intro hx
    rcases Option.isSome_iff_exists.mp (hall x hx) with ⟨b, hfb⟩
    have hbmem : b ∈ books := List.mem_of_find?_eq_some hfb
    have hbid : b._id = x := by simpa using List.find?_some hfb
    subst hbid
    refine List.mem_map.mpr ⟨b, List.mem_filter.mpr ⟨hbmem, ?_⟩, rfl⟩
    simpa using hx

/-- The reduce over book prices as a sum. -/
theorem foldl_price (l : List Book) (a : Int) :
    l.foldl (fun total b => total + b.price) a = a + (l.map Book.price).sum := by
  induction l generalizing a with
  | nil => simp
  | cons hd tl ih => simp [ih, add_assoc]

/-- C1 amended: with unique catalog identifiers, a duplicate-free
reference list whose every entry resolves, and an existing user,
placeOrder succeeds and the totalAmount of the returned order is the sum
of the prices of the referenced books, one contribution per reference. -/
theorem placeOrder_total_correct (db : DB) (uid : String)
    (refs : List String) (hcat : catalogIdsNodup db.books)
    (hrefs : refs.Nodup) (hu : (findUser db.users uid).isSome = true)
    (hb : ∀ r ∈ refs, (findBook db.books r).isSome = true) :
    (placeOrder db uid refs).1.status = 201 ∧
    ∃ o, (placeOrder db uid refs).1.order = some o ∧
      o.totalAmount = (refs.map (priceOf db.books)).sum := by
  rcases Option.isSome_iff_exists.mp hu with ⟨u, hfu⟩
  have hperm := findBooksIn_map_id_perm db.books refs hcat hrefs hb
  have hlen : (findBooksIn db.books refs).length = refs.length := by
    have hl := hperm.length_eq
    simpa using hl
  have hbne : ((findBooksIn db.books refs).length != refs.length) = false := by
    simp [hlen]
  rw [placeOrder_of_len_eq db uid refs u hfu hbne]
  refine ⟨rfl, _, rfl, ?_⟩
  show (findBooksIn db.books refs).foldl (fun total b => total + b.price) 0 =
    (refs.map (priceOf db.books)).sum
  rw [foldl_price, zero_add]
  have h1 : (findBooksIn db.books refs).map Book.price =
      ((findBooksIn db.books refs).map Book._id).map (priceOf db.books) := by
    rw [List.map_map]
    refine List.map_congr_left ?_
    intro b hbS
    have hbmem : b ∈ db.books := (List.mem_filter.mp hbS).1
    have hfind : findBook db.books b._id = some b :=
      find_book_of_mem db.books b hcat hbmem
    simp [Function.comp, priceOf, hfind]
  rw [h1]
  exact (hperm.map (priceOf db.books)).sum_eq

theorem placeOrder_total_correct_witness :
    (placeOrder db4 "u1" ["b1", "b2"]).1.status = 201 ∧
    ∃ o, (placeOrder db4 "u1" ["b1", "b2"]).1.order = some o ∧
      o.totalAmount = ((["b1", "b2"].map (priceOf db4.books)).sum) :=
  placeOrder_total_correct db4 "u1" ["b1", "b2"]
    (by decide) (by decide) (by decide) (by decide)

/-- C3: with unique catalog identifiers, an existing user, and at least
one reference that resolves to no catalog book, placeOrder fails with
400 "Books not found" and writes nothing. -/
theorem placeOrder_books_not_found (db : DB) (uid : String)
    (refs : List String) (r : String) (hcat : catalogIdsNodup db.books)
    (hu : (findUser db.users uid).isSome = true)
    (hr : r ∈ refs) (hmiss : findBook db.books r = none) :
    (placeOrder db uid refs).1.status = 400 ∧
    (placeOrder db uid refs).1.message = "Books not found" ∧
    (placeOrder db uid refs).2 = db := by
  rcases Option.isSome_iff_exists.mp hu with ⟨u, hfu⟩
  have hlt : (findBooksIn db.books refs).length < refs.length := by
    set S := (findBooksIn db.books refs).map Book._id with hS
    have hndS : S.Nodup :=
      hcat.sublist ((List.filter_sublist db.books).map Book._id)
    have hsub : S.toFinset ⊆ refs.toFinset.erase r := by
      intro x hxF
      have hx : x ∈ S := List.mem_toFinset.mp hxF
      rcases List.mem_map.mp hx with ⟨b, hbS, rfl⟩
      have hbf := List.mem_filter.mp hbS
      have hxr : b._id ∈ refs := by simpa using hbf.2
      have hne : b._id ≠ r := by
        intro he
        exact (List.find?_eq_none.mp hmiss b hbf.1) (by simp [he])
      exact Finset.mem_erase.mpr ⟨hne, List.mem_toFinset.mpr hxr⟩
    have h1 : S.toFinset.card = S.length := List.toFinset_card_of_nodup hndS
    have h2 : S.toFinset.card ≤ (refs.toFinset.erase r).card :=
      Finset.card_le_card hsub
    have h3 : (refs.toFinset.erase r).card = refs.toFinset.card - 1 :=
      Finset.card_erase_of_mem (List.mem_toFinset.mpr hr)
    have h4 : refs.toFinset.card ≤ refs.length := refs.toFinset_card_le
    have h5 : 0 < refs.toFinset.card :=
      Finset.card_pos.mpr ⟨r, List.mem_toFinset.mpr hr⟩
    have h6 : S.length = (findBooksIn db.books refs).length := by
      rw [hS, List.length_map]
    omega
  have hbne : ((findBooksIn db.books refs).length != refs.length) = true :=
    bne_iff_ne.mpr (Nat.ne_of_lt hlt)
  rw [placeOrder_of_len_ne db uid refs u hfu hbne]
  exact ⟨rfl, rfl, rfl⟩

theorem placeOrder_books_not_found_witness :
    (placeOrder db4 "u1" ["b1", "nope"]).1.status = 400 ∧
    (placeOrder db4 "u1" ["b1", "nope"]).1.message = "Books not found" ∧
    (placeOrder db4 "u1" ["b1", "nope"]).2 = db4 :=
  placeOrder_books_not_found db4 "u1" ["b1", "nope"] "nope"
    (by decide) (by decide) (by decide) (by decide)
